import Mathlib

/-!
Shallow embedding of the live-beats-aws CDK application (foundation stack,
database stack, app stack) and proofs about the claims of its specification.

The embedding models each stack's resource declarations as Lean data:
security-group rule declarations, the ECS service configuration, the task
container environment and secret bindings, the target-group health check,
and the ARN prediction used for the libcluster strategy.
-/

namespace LiveBeats

/-- Subnet tiers used by the VPC (aws-ec2 SubnetType). -/
inductive SubnetType
  | PUBLIC
  | PRIVATE_ISOLATED
deriving DecidableEq

/-- One entry of the VPC subnetConfiguration (foundationStack.ts). -/
structure SubnetConfig where
  cidrMask : Nat
  name : String
  subnetType : SubnetType
deriving DecidableEq

/-- The VPC configuration (foundationStack.ts lines 20-37). -/
structure VpcConfig where
  cidr : String
  natGateways : Nat
  maxAzs : Nat
  subnetConfiguration : List SubnetConfig
deriving DecidableEq

/-- The VPC created by FoundationStack: 10.0.0.0/21, no NAT gateways, two
availability zones, a public tier and a private-isolated tier. -/
def foundationVpc : VpcConfig :=
  { cidr := "10.0.0.0/21"
    natGateways := 0
    maxAzs := 2
    subnetConfiguration :=
      [ { cidrMask := 23, name := "public", subnetType := .PUBLIC }
      , { cidrMask := 23, name := "private", subnetType := .PRIVATE_ISOLATED } ] }

/-- IP protocol of a security-group rule (ec2.Port). `allProtocols` is the
EC2 "-1" protocol, matching every protocol. -/
inductive IpProtocol
  | tcp
  | udp
  | icmp
  | allProtocols
deriving DecidableEq

/-- A protocol plus an inclusive port interval (ec2.Port). -/
structure PortRange where
  protocol : IpProtocol
  fromPort : Nat
  toPort : Nat
deriving DecidableEq

/-- ec2.Port.tcp(p): a single TCP port. -/
def Port.tcp (p : Nat) : PortRange := ⟨.tcp, p, p⟩

/-- ec2.Port.allTcp(): TCP on the whole port range 0-65535. -/
def Port.allTcp : PortRange := ⟨.tcp, 0, 65535⟩

/-- The remote endpoint a security-group rule names: any IPv4 address, an
IPv4 CIDR block, or another security group. -/
inductive Peer
  | anyIpv4
  | ipv4 (cidr : String)
  | securityGroup (name : String)
deriving DecidableEq

/-- Direction of a security-group rule. -/
inductive Direction
  | ingress
  | egress
deriving DecidableEq

/-- One security-group rule declaration as written in a stack: the group it
is declared on, its direction, remote peer, port range and description. -/
structure RuleDecl where
  sg : String
  direction : Direction
  peer : Peer
  port : PortRange
  description : String
deriving DecidableEq

/-- Props of DatabaseStack (databaseStack.ts lines 8-12, minus handles). -/
structure DatabaseStackProps where
  stage : String
  appName : String
deriving DecidableEq

/-- Props of AppStack (appStack.ts lines 11-17), with the VPC handle
replaced by its CIDR block and the stack environment (region/account)
made explicit, as formatArn reads them from the stack. -/
structure AppStackProps where
  stage : String
  appName : String
  region : String
  account : String
  vpcCidrBlock : String
deriving DecidableEq

/-- appStack.ts line 31: the caller-assigned ECS cluster name. -/
def ecsClusterName (props : AppStackProps) : String :=
  props.appName ++ "-ecs-cluster"

/-- appStack.ts line 32: the caller-assigned ECS service name. -/
def ecsServiceName (props : AppStackProps) : String :=
  props.appName ++ "-ecs-service"

/-- appStack.ts line 37: construct id of the load-balancer security group. -/
def ecsAlbSecurityGroupName (props : AppStackProps) : String :=
  props.stage ++ "-" ++ props.appName ++ "-ecs-alb-security-group"

/-- appStack.ts line 49: construct id of the ECS service security group. -/
def ecsServiceSecurityGroupName (props : AppStackProps) : String :=
  props.stage ++ "-" ++ props.appName ++ "-ecs-service-security-group"

/-- databaseStack.ts line 48: construct id of the database security group. -/
def databaseSecurityGroupName (props : DatabaseStackProps) : String :=
  props.stage ++ "-" ++ props.appName ++ "-database-security-group"

/-- The security group of the database handle AppStack receives: the app
entry point (live-beats-aws.ts) wires DatabaseStack's database, whose only
security group is `databaseSecurityGroupName` for the same stage/appName
(databaseStack.ts line 104). -/
def appStackDatabaseSecurityGroup (props : AppStackProps) : String :=
  props.stage ++ "-" ++ props.appName ++ "-database-security-group"

/-- The implicit egress rule every ec2.SecurityGroup in these stacks
carries: none of them sets allowAllOutbound, whose default is true, so CDK
renders an allow-everything egress rule (all protocols, all ports, to
0.0.0.0/0) on the group. -/
def allowAllOutboundRule (sg : String) : RuleDecl :=
  ⟨sg, .egress, .anyIpv4, ⟨.allProtocols, 0, 65535⟩,
    "Allow all outbound traffic by default"⟩

/-- CDK Connections.allowTo from a security group to a target security
group: the egress rule on the initiating group is added only when its
allowAllOutbound is false (otherwise the allow-all default subsumes it and
CDK drops it), and the matching ingress rule is always added to the target
group, naming the initiating group as peer (bidirectional registration,
rendered in the initiating stack for cross-stack targets). -/
def connectionsAllowTo (sourceSg : String) (sourceAllowAllOutbound : Bool)
    (targetSg : String) (port : PortRange) (description : String) :
    List RuleDecl :=
  (match sourceAllowAllOutbound with
    | true => []
    | false => [⟨sourceSg, .egress, .securityGroup targetSg, port, description⟩]) ++
  [⟨targetSg, .ingress, .securityGroup sourceSg, port, description⟩]

/-- databaseStack.ts lines 45-50: the database security group is created
with no declared rules; it still carries the default allow-all egress rule,
and DatabaseStack declares nothing else on any group. -/
def databaseStackRuleDecls (props : DatabaseStackProps) : List RuleDecl :=
  [allowAllOutboundRule (databaseSecurityGroupName props)]

/-- appStack.ts lines 34-44: the load-balancer security group admits HTTP
from anywhere, plus its default allow-all egress rule. -/
def ecsAlbSecurityGroupRules (props : AppStackProps) : List RuleDecl :=
  [ ⟨ecsAlbSecurityGroupName props, .ingress, .anyIpv4, Port.tcp 80,
      "Allow HTTP traffic from anywhere"⟩
  , allowAllOutboundRule (ecsAlbSecurityGroupName props) ]

/-- appStack.ts lines 46-65: rules on the ECS service security group —
inbound TCP 4000 from the load-balancer group, inbound all-TCP from the VPC
CIDR for libcluster, plus its default allow-all egress rule. The allowTo
declaration at lines 71-75 adds no egress rule here (the group's
allowAllOutbound default subsumes it); its effect is `allowToDatabaseRules`. -/
def ecsServiceSecurityGroupRules (props : AppStackProps) : List RuleDecl :=
  [ ⟨ecsServiceSecurityGroupName props, .ingress,
      .securityGroup (ecsAlbSecurityGroupName props), Port.tcp 4000,
      "Allow TCP traffic on port 4000 from the load balancer"⟩
  , ⟨ecsServiceSecurityGroupName props, .ingress,
      .ipv4 props.vpcCidrBlock, Port.allTcp,
      "Allow TCP traffic from other nodes for libcluster"⟩
  , allowAllOutboundRule (ecsServiceSecurityGroupName props) ]

/-- appStack.ts lines 71-75:
ecsServiceSecurityGroup.connections.allowTo(props.database, tcp 5432) —
with the service group's allowAllOutbound true, the sole rendered rule is
the ingress rule on the database handle's security group admitting TCP 5432
from the service group. -/
def allowToDatabaseRules (props : AppStackProps) : List RuleDecl :=
  connectionsAllowTo (ecsServiceSecurityGroupName props) true
    (appStackDatabaseSecurityGroup props) (Port.tcp 5432)
    "Allow traffic on port 5432 from the ECS service to the database"

/-- The single ingress rule the allowTo declaration materializes on the
database security group. -/
def databaseIngressFromServiceRule (props : AppStackProps) : RuleDecl :=
  ⟨appStackDatabaseSecurityGroup props, .ingress,
    .securityGroup (ecsServiceSecurityGroupName props), Port.tcp 5432,
    "Allow traffic on port 5432 from the ECS service to the database"⟩

/-- All security-group rule declarations made by AppStack, including the
defaults and the allowTo effect on the database group. -/
def appStackRuleDecls (props : AppStackProps) : List RuleDecl :=
  ecsAlbSecurityGroupRules props ++ ecsServiceSecurityGroupRules props ++
    allowToDatabaseRules props

/-- Whether a port range covers protocol `proto` at port `p`. -/
abbrev PortRange.matches (pr : PortRange) (proto : IpProtocol) (p : Nat) : Prop :=
  (pr.protocol = proto ∨ pr.protocol = .allProtocols) ∧
    pr.fromPort ≤ p ∧ p ≤ pr.toPort

/-- Whether a port range covers TCP at port `p`. -/
abbrev PortRange.matchesTcp (pr : PortRange) (p : Nat) : Prop :=
  pr.matches .tcp p

/-- The rule set `rules` admits inbound `proto` traffic on port `p` into
security group `sg` from peer `src`. -/
abbrev admitsInbound (rules : List RuleDecl) (sg : String) (src : Peer)
    (proto : IpProtocol) (p : Nat) : Prop :=
  ∃ r ∈ rules, r.sg = sg ∧ r.direction = .ingress ∧ r.peer = src ∧
    r.port.matches proto p

/-- The rule set `rules` admits inbound TCP on port `p` into group `sg`
from peer `src`. -/
abbrev admitsInboundTcp (rules : List RuleDecl) (sg : String) (src : Peer)
    (p : Nat) : Prop :=
  admitsInbound rules sg src .tcp p

/-- The rule set `rules` admits outbound TCP on port `p` out of group `sg`
to peer `dst`. -/
abbrev admitsOutboundTcp (rules : List RuleDecl) (sg : String) (dst : Peer)
    (p : Nat) : Prop :=
  ∃ r ∈ rules, r.sg = sg ∧ r.direction = .egress ∧ r.peer = dst ∧
    r.port.matchesTcp p

/-- core Arn.format as used by Stack.formatArn with the default arnFormat:
arn : partition : service : region : account : resource / resourceName. -/
def formatArn (partition service region account resource resourceName : String) :
    String :=
  "arn:" ++ partition ++ ":" ++ service ++ ":" ++ region ++ ":" ++ account ++
    ":" ++ resource ++ "/" ++ resourceName

/-- appStack.ts lines 181-185: the Service ARN predicted at definition time
from the caller-assigned cluster and service names. -/
def ecsServiceArn (props : AppStackProps) : String :=
  formatArn "aws" "ecs" props.region props.account "service"
    (ecsClusterName props ++ "/" ++ ecsServiceName props)

/-- Modelled from the spec: the provisioning engine that assigns identifiers
after creation is outside src/ ("the underlying provisioning/orchestration
engine ... assumed to exist"). Per the spec, its identifier format for this
resource class is a documented, stable template, yielding for an ECS Service
the ARN prefix for the partition, region and account followed by
service/cluster-name/service-name. -/
def engineAssignedServiceArn (region account clusterName serviceName : String) :
    String :=
  "arn:aws:ecs:" ++ region ++ ":" ++ account ++ ":service/" ++ clusterName ++
    "/" ++ serviceName

/-- appStack.ts line 199: the caller-assigned (lowercase-templated) name of
the application load balancer. -/
def ecsLoadBalancerName (props : AppStackProps) : String :=
  props.stage ++ "-" ++ props.appName ++ "-ecs-lb"

/-- The plain environment variables of the task container
(appStack.ts lines 366-373). -/
structure ContainerEnvironment where
  PHX_HOST : String
  POOL_SIZE : String
  AWS_ECS_CLUSTER_REGION : String
  AWS_ECS_CLUSTER_NAME : String
  AWS_ECS_SERVICE_ARN : String
  DB_NAME : String
deriving DecidableEq

/-- appStack.ts lines 366-373: the environment block of the container, as a
function of the load balancer's generated DNS name (a deploy-time token).
PHX_HOST is assigned the DNS name directly. -/
def containerEnvironment (props : AppStackProps) (loadBalancerDnsName : String) :
    ContainerEnvironment :=
  { PHX_HOST := loadBalancerDnsName
    POOL_SIZE := "2"
    AWS_ECS_CLUSTER_REGION := props.region
    AWS_ECS_CLUSTER_NAME := ecsClusterName props
    AWS_ECS_SERVICE_ARN := ecsServiceArn props
    DB_NAME := "postgres" }

/-- One secret binding of the container: the environment variable it fills,
the secret it reads, and, for JSON secrets, the field it extracts. -/
structure SecretBinding where
  envName : String
  secretId : String
  jsonField : Option String
deriving DecidableEq

/-- appStack.ts lines 374-399: the secret bindings of the container. The
four DB_* values are discrete fields of the imported database credentials
secret; the rest are whole-value secrets created in the app stack. -/
def containerSecrets : List SecretBinding :=
  [ ⟨"DB_USERNAME", "databaseCredentialsSecret", some "username"⟩
  , ⟨"DB_PASSWORD", "databaseCredentialsSecret", some "password"⟩
  , ⟨"DB_HOST", "databaseCredentialsSecret", some "host"⟩
  , ⟨"DB_PORT", "databaseCredentialsSecret", some "port"⟩
  , ⟨"SECRET_KEY_BASE", "secretKeyBaseSecret", none⟩
  , ⟨"RELEASE_COOKIE", "releaseCookieSecret", none⟩
  , ⟨"LIVE_BEATS_GITHUB_CLIENT_ID", "liveBeatsGitHubClientIdSecret", none⟩
  , ⟨"LIVE_BEATS_GITHUB_CLIENT_SECRET", "liveBeatsGitHubClientSecretSecret", none⟩ ]

/-- The JSON fields of the database credentials secret that the container
reads (the jsonField of each binding against that secret). -/
def dbSecretKeysRead : List String :=
  (containerSecrets.filter (fun b => b.secretId = "databaseCredentialsSecret")).filterMap
    (fun b => b.jsonField)

/-- databaseStack.ts lines 55-70: keys present in the generated database
credentials secret — "username" from the secretStringTemplate and
"password" as the generateStringKey. -/
def databaseCredentialsSecretGeneratedKeys : List String :=
  ["username", "password"]

/-- Modelled from the spec: binding the credential Secret to the Database
(rds.Credentials.fromSecret at databaseStack.ts line 106) makes the engine
resolve connection details into the secret — the spec states the credential
identifier is "resolved into four discrete values (host, port, username,
password)"; the resolution itself happens in the external engine, not under
src/. These are the keys that resolution adds. -/
def databaseAttachmentAddedKeys : List String :=
  ["host", "port"]

/-- All keys of the database credentials secret once the Database has been
created from it. -/
def databaseCredentialsSecretKeys : List String :=
  databaseCredentialsSecretGeneratedKeys ++ databaseAttachmentAddedKeys

/-- The database instance configuration (databaseStack.ts lines 37-108). -/
structure DatabaseInstanceConfig where
  engine : String
  instanceType : String
  port : Nat
  username : String
  subnetType : SubnetType
  multiAz : Bool
  allocatedStorage : Nat
  maxAllocatedStorage : Nat
  securityGroups : List String
  publiclyAccessible : Bool
deriving DecidableEq

/-- The database created by DatabaseStack: Postgres on a db.t4g.micro in the
private-isolated tier, port 5432, bound to the (empty) database security
group, not publicly accessible. -/
def database (props : DatabaseStackProps) : DatabaseInstanceConfig :=
  { engine := "postgres"
    instanceType := "db.t4g.micro"
    port := 5432
    username := "postgres"
    subnetType := .PRIVATE_ISOLATED
    multiAz := false
    allocatedStorage := 20
    maxAllocatedStorage := 40
    securityGroups := [databaseSecurityGroupName props]
    publiclyAccessible := false }

/-- The Fargate service configuration (appStack.ts lines 405-423). -/
structure FargateServiceConfig where
  serviceName : String
  clusterName : String
  desiredCount : Nat
  securityGroups : List String
  assignPublicIp : Bool
  circuitBreakerRollback : Bool
  minHealthyPercent : Nat
  maxHealthyPercent : Nat
  enableExecuteCommand : Bool
  vpcSubnetType : SubnetType
deriving DecidableEq

/-- appStack.ts lines 405-423: the ECS Fargate service — desiredCount 0,
the service security group, public subnets with a public IP, and the
deployment circuit breaker with rollback. -/
def ecsService (props : AppStackProps) : FargateServiceConfig :=
  { serviceName := ecsServiceName props
    clusterName := ecsClusterName props
    desiredCount := 0
    securityGroups := [ecsServiceSecurityGroupName props]
    assignPublicIp := true
    circuitBreakerRollback := true
    minHealthyPercent := 50
    maxHealthyPercent := 500
    enableExecuteCommand := true
    vpcSubnetType := .PUBLIC }

/-- A target-group health check (appStack.ts lines 432-438). -/
structure HealthCheckConfig where
  path : String
  healthyThresholdCount : Nat
  unhealthyThresholdCount : Nat
  intervalSeconds : Nat
  timeoutSeconds : Nat
deriving DecidableEq

/-- The listener target group (appStack.ts lines 426-444). -/
structure TargetGroupConfig where
  port : Nat
  healthCheck : HealthCheckConfig
  deregistrationDelaySeconds : Nat
deriving DecidableEq

/-- appStack.ts lines 426-444: the load-balancer target group for the ECS
service — port 4000, health check on /signin every 5 seconds with a
3-second timeout, deregistration delay shortened to 10 seconds. -/
def lbTargetGroup : TargetGroupConfig :=
  { port := 4000
    healthCheck :=
      { path := "/signin"
        healthyThresholdCount := 2
        unhealthyThresholdCount := 2
        intervalSeconds := 5
        timeoutSeconds := 3 }
    deregistrationDelaySeconds := 10 }

/-- App-stack props for the deployment example stage="staging",
appName="demo" used by the spec's testable properties, with the foundation
VPC's CIDR block. -/
def demoProps : AppStackProps :=
  { stage := "staging"
    appName := "demo"
    region := "eu-west-2"
    account := "123456789012"
    vpcCidrBlock := foundationVpc.cidr }

/-- The same deployment as `demoProps` with a different stage label. -/
def demoPropsProd : AppStackProps :=
  { demoProps with stage := "prod" }

/-- Database-stack props matching `demoProps`. -/
def demoDbProps : DatabaseStackProps :=
  { stage := "staging", appName := "demo" }

/-- The spec's "lowercase-normalized form" of a hostname: every character
mapped to lowercase. -/
def lowercaseHostname (s : String) : String :=
  ⟨s.data.map Char.toLower⟩

/-! ## Theorems -/

/-- Appending different-length suffixes to the same string yields different
strings. -/
theorem append_ne_of_length_ne (s a b : String) (h : a.length ≠ b.length) :
    s ++ a ≠ s ++ b := by
  intro hc
  apply h
  have hl := congrArg String.length hc
  simp only [String.length_append] at hl
  omega

/-- The formatArn computation agrees with the engine's service-ARN template
for every cluster-name/service-name pair. -/
theorem formatArn_service_eq (region account c s : String) :
    formatArn "aws" "ecs" region account "service" (c ++ "/" ++ s)
      = engineAssignedServiceArn region account c s := by
  unfold formatArn engineAssignedServiceArn
  have h1 : ("arn:aws:ecs:" : String) = "arn:" ++ "aws" ++ ":" ++ "ecs" ++ ":" := rfl
  have h2 : (":service/" : String) = ":" ++ "service" ++ "/" := rfl
  rw [h1, h2]
  simp only [String.append_assoc]

/-- Claim C1: the Service ARN computed at definition time from the
caller-assigned cluster and service names — the value injected into the
task environment as AWS_ECS_SERVICE_ARN — equals, by exact string equality,
the identifier the provisioning engine assigns to the Service after
creation, for any chosen cluster-name/service-name pair. -/
theorem predicted_service_arn_matches_engine (props : AppStackProps)
    (clusterName serviceName hostname : String) :
    formatArn "aws" "ecs" props.region props.account "service"
        (clusterName ++ "/" ++ serviceName)
      = engineAssignedServiceArn props.region props.account clusterName serviceName
    ∧ ecsServiceArn props
      = engineAssignedServiceArn props.region props.account
          (ecsClusterName props) (ecsServiceName props)
    ∧ (containerEnvironment props hostname).AWS_ECS_SERVICE_ARN
      = ecsServiceArn props :=
  ⟨formatArn_service_eq props.region props.account clusterName serviceName,
   formatArn_service_eq props.region props.account
     (ecsClusterName props) (ecsServiceName props),
   rfl⟩

/-- Claim C2 counterexample: for the LoadBalancer hostname
DEMO-ABC123.example-region.provider.net, the injected PHX_HOST value is the
hostname itself, which differs from its lowercase-normalized form. -/
theorem phx_host_not_lowercased :
    (containerEnvironment demoProps
        "DEMO-ABC123.example-region.provider.net").PHX_HOST
      ≠ lowercaseHostname "DEMO-ABC123.example-region.provider.net" := by
  decide

/-- Claim C2 (amended): the value injected into PHX_HOST is the
LoadBalancer hostname verbatim — no lowercase normalization is applied — so
it equals the lowercase-normalized form exactly when the generated hostname
is already lowercase. -/
theorem phx_host_is_hostname_verbatim (props : AppStackProps)
    (hostname : String) :
    (containerEnvironment props hostname).PHX_HOST = hostname ∧
    (lowercaseHostname hostname = hostname →
      (containerEnvironment props hostname).PHX_HOST
        = lowercaseHostname hostname) := by
  refine ⟨rfl, fun h => ?_⟩
  rw [h]
  exact rfl

/-- Witness for the amended C2 at an already-lowercase hostname. -/
theorem phx_host_is_hostname_verbatim_witness :
    (containerEnvironment demoProps
        "demo-abc123.example-region.provider.net").PHX_HOST
      = lowercaseHostname "demo-abc123.example-region.provider.net" :=
  (phx_host_is_hostname_verbatim demoProps
    "demo-abc123.example-region.provider.net").2 (by decide)

/-- Claim C5: every database-credential key read by the container
("username", "password", "host", "port") exists in the credential secret
produced by DataTier once the Database has been created from it. -/
theorem db_secret_keys_all_present :
    ∀ k ∈ dbSecretKeysRead, k ∈ databaseCredentialsSecretKeys := by
  decide

/-- Witness for C5 at the key "host". -/
theorem db_secret_keys_all_present_witness :
    "host" ∈ databaseCredentialsSecretKeys :=
  db_secret_keys_all_present "host" (by decide)

/-- Claim C7: the ECS service is created with desiredCount zero, so the
resource graph is provisioned without any running replica. -/
theorem service_created_with_zero_replicas (props : AppStackProps) :
    (ecsService props).desiredCount = 0 :=
  rfl

/-- Claim C8: the target group's health-check interval (5 s) is strictly
greater than its timeout (3 s). -/
theorem target_group_interval_gt_timeout :
    lbTargetGroup.healthCheck.intervalSeconds
      > lbTargetGroup.healthCheck.timeoutSeconds := by
  decide

/-- Claim C9: the cluster name, service name and predicted service ARN
depend only on appName (and, for the ARN, the stack's region/account) — two
deployments differing only in stage compute identical names and ARN. -/
theorem names_depend_only_on_app_name (p q : AppStackProps)
    (happ : p.appName = q.appName) :
    ecsClusterName p = ecsClusterName q ∧
    ecsServiceName p = ecsServiceName q ∧
    (p.region = q.region → p.account = q.account →
      ecsServiceArn p = ecsServiceArn q) := by
  have h1 : ecsClusterName p = ecsClusterName q := by
    unfold ecsClusterName; rw [happ]
  have h2 : ecsServiceName p = ecsServiceName q := by
    unfold ecsServiceName; rw [happ]
  refine ⟨h1, h2, fun hr ha => ?_⟩
  unfold ecsServiceArn
  rw [h1, h2, hr, ha]

/-- Witness for C9: the staging and prod deployments of the same app name
share their cluster name, service name and predicted ARN. -/
theorem names_depend_only_on_app_name_witness :
    ecsClusterName demoProps = ecsClusterName demoPropsProd ∧
    ecsServiceName demoProps = ecsServiceName demoPropsProd ∧
    ecsServiceArn demoProps = ecsServiceArn demoPropsProd := by
  have h := names_depend_only_on_app_name demoProps demoPropsProd rfl
  exact ⟨h.1, h.2.1, h.2.2 rfl rfl⟩

/-- Claim C10: the service's replicas are placed in the public subnet tier
with a public IP per task, while the database sits in the private-isolated
tier, and the VPC has no NAT gateways. -/
theorem service_public_database_private (ap : AppStackProps)
    (dp : DatabaseStackProps) :
    (ecsService ap).vpcSubnetType = SubnetType.PUBLIC ∧
    (ecsService ap).assignPublicIp = true ∧
    (database dp).subnetType = SubnetType.PRIVATE_ISOLATED ∧
    SubnetType.PUBLIC ≠ SubnetType.PRIVATE_ISOLATED ∧
    foundationVpc.natGateways = 0 :=
  ⟨rfl, rfl, rfl, by decide, rfl⟩

/-- Claim C3 counterexample: at stage="staging", appName="demo" the service
security group also admits inbound TCP 4000 from the VPC CIDR block, a peer
distinct from the edge (load-balancer) security group; and on the egress
side its default allow-all rule admits outbound TCP 443 to any IPv4
address, a peer distinct from the database's security group — so neither
"inbound 4000 only from the edge group" nor "outbound TCP 5432 only to the
Database handle" holds. -/
theorem service_sg_admits_vpc_cidr_and_all_egress :
    (admitsInboundTcp (appStackRuleDecls demoProps)
        (ecsServiceSecurityGroupName demoProps) (Peer.ipv4 "10.0.0.0/21") 4000
      ∧ Peer.ipv4 "10.0.0.0/21"
          ≠ Peer.securityGroup (ecsAlbSecurityGroupName demoProps)) ∧
    (admitsOutboundTcp (appStackRuleDecls demoProps)
        (ecsServiceSecurityGroupName demoProps) Peer.anyIpv4 443
      ∧ Peer.anyIpv4
          ≠ Peer.securityGroup (appStackDatabaseSecurityGroup demoProps)) := by
  decide

/-- Claim C3 (amended): for any stage/appName, the service security group
admits inbound TCP on port 4000 only from the edge security group or from
the VPC CIDR block, and every inbound rule names the edge group or the VPC
block — so no inbound path from the public internet. On the egress side its
only rule is the default allow-all rule (the declared 5432 rule to the
database is subsumed by it and dropped), so outbound traffic — including
TCP 5432 to the database — is admitted to anywhere, not only to the
Database handle. -/
theorem service_sg_inbound_scoped (props : AppStackProps) :
    (∀ src : Peer,
        admitsInboundTcp (appStackRuleDecls props)
          (ecsServiceSecurityGroupName props) src 4000 →
        src = Peer.securityGroup (ecsAlbSecurityGroupName props) ∨
        src = Peer.ipv4 props.vpcCidrBlock) ∧
    (∀ r ∈ appStackRuleDecls props,
        r.sg = ecsServiceSecurityGroupName props →
        r.direction = Direction.ingress →
        r.peer = Peer.securityGroup (ecsAlbSecurityGroupName props) ∨
        r.peer = Peer.ipv4 props.vpcCidrBlock) ∧
    (∀ r ∈ appStackRuleDecls props,
        r.sg = ecsServiceSecurityGroupName props →
        r.direction = Direction.egress →
        r = allowAllOutboundRule (ecsServiceSecurityGroupName props)) ∧
    (∀ p : Nat, p ≤ 65535 →
        admitsOutboundTcp (appStackRuleDecls props)
          (ecsServiceSecurityGroupName props) Peer.anyIpv4 p) := by
  have hne1 : ecsAlbSecurityGroupName props ≠ ecsServiceSecurityGroupName props := by
    unfold ecsAlbSecurityGroupName ecsServiceSecurityGroupName
    exact append_ne_of_length_ne _ _ _ (by decide)
  have hne3 : appStackDatabaseSecurityGroup props ≠ ecsServiceSecurityGroupName props := by
    unfold appStackDatabaseSecurityGroup ecsServiceSecurityGroupName
    exact append_ne_of_length_ne _ _ _ (by decide)
  refine ⟨?_, ?_, ?_, ?_⟩
  · rintro src ⟨r, hr, hsg, hdir, hpeer, hmatch⟩
    simp only [appStackRuleDecls, ecsAlbSecurityGroupRules,
      ecsServiceSecurityGroupRules, allowToDatabaseRules, connectionsAllowTo,
      List.mem_append, List.mem_cons, List.mem_singleton,
      List.not_mem_nil, or_false, false_or, List.nil_append, or_assoc] at hr
    rcases hr with rfl | rfl | rfl | rfl | rfl | rfl
    · exact absurd hsg hne1
    · exact absurd hsg hne1
    · exact Or.inl hpeer.symm
    · exact Or.inr hpeer.symm
    · exact Direction.noConfusion hdir
    · exact absurd hsg hne3
  · rintro r hr hsg hdir
    simp only [appStackRuleDecls, ecsAlbSecurityGroupRules,
      ecsServiceSecurityGroupRules, allowToDatabaseRules, connectionsAllowTo,
      List.mem_append, List.mem_cons, List.mem_singleton,
      List.not_mem_nil, or_false, false_or, List.nil_append, or_assoc] at hr
    rcases hr with rfl | rfl | rfl | rfl | rfl | rfl
    · exact absurd hsg hne1
    · exact absurd hsg hne1
    · exact Or.inl rfl
    · exact Or.inr rfl
    · exact Direction.noConfusion hdir
    · exact absurd hsg hne3
  · rintro r hr hsg hdir
    simp only [appStackRuleDecls, ecsAlbSecurityGroupRules,
      ecsServiceSecurityGroupRules, allowToDatabaseRules, connectionsAllowTo,
      List.mem_append, List.mem_cons, List.mem_singleton,
      List.not_mem_nil, or_false, false_or, List.nil_append, or_assoc] at hr
    rcases hr with rfl | rfl | rfl | rfl | rfl | rfl
    · exact absurd hsg hne1
    · exact absurd hsg hne1
    · exact Direction.noConfusion hdir
    · exact Direction.noConfusion hdir
    · exact rfl
    · exact absurd hsg hne3
  · intro p hp
    exact ⟨allowAllOutboundRule (ecsServiceSecurityGroupName props),
      by simp [appStackRuleDecls, ecsServiceSecurityGroupRules],
      rfl, rfl, rfl, Or.inr rfl, Nat.zero_le p, hp⟩

/-- Witness for the amended C3: the VPC CIDR peer is admitted on port 4000
and is classified as one of the two permitted sources. -/
theorem service_sg_inbound_scoped_witness :
    Peer.ipv4 "10.0.0.0/21"
        = Peer.securityGroup (ecsAlbSecurityGroupName demoProps) ∨
    Peer.ipv4 "10.0.0.0/21" = Peer.ipv4 demoProps.vpcCidrBlock :=
  (service_sg_inbound_scoped demoProps).1 (Peer.ipv4 "10.0.0.0/21") (by decide)

/-- Claim C4 counterexample: the libcluster rule is TCP-only — at
stage="staging", appName="demo" no rule admits UDP (here port 4369) from
the VPC CIDR, and no inbound rule from the VPC CIDR carries the
all-protocols marker. -/
theorem no_all_protocol_rule_from_vpc :
    ¬ admitsInbound (appStackRuleDecls demoProps)
        (ecsServiceSecurityGroupName demoProps) (Peer.ipv4 "10.0.0.0/21")
        IpProtocol.udp 4369
    ∧ ¬ ∃ r ∈ appStackRuleDecls demoProps,
        r.direction = Direction.ingress ∧
        r.peer = Peer.ipv4 "10.0.0.0/21" ∧
        r.port.protocol = IpProtocol.allProtocols := by
  decide

/-- Claim C4 (amended): for any stage/appName, the service security group
contains a rule admitting inbound traffic from the entire VPC CIDR block on
all TCP ports (0-65535) — TCP only, not all protocols — for the libcluster
ephemeral port range. -/
theorem all_tcp_from_vpc_cidr (props : AppStackProps) :
    (∃ r ∈ appStackRuleDecls props,
        r.sg = ecsServiceSecurityGroupName props ∧
        r.direction = Direction.ingress ∧
        r.peer = Peer.ipv4 props.vpcCidrBlock ∧
        r.port = Port.allTcp) ∧
    (∀ p : Nat, p ≤ 65535 →
        admitsInboundTcp (appStackRuleDecls props)
          (ecsServiceSecurityGroupName props) (Peer.ipv4 props.vpcCidrBlock) p) := by
  constructor
  · refine ⟨⟨ecsServiceSecurityGroupName props, .ingress,
      .ipv4 props.vpcCidrBlock, Port.allTcp,
      "Allow TCP traffic from other nodes for libcluster"⟩,
      ?_, rfl, rfl, rfl, rfl⟩
    simp [appStackRuleDecls, ecsServiceSecurityGroupRules]
  · intro p hp
    exact ⟨⟨ecsServiceSecurityGroupName props, .ingress,
      .ipv4 props.vpcCidrBlock, Port.allTcp,
      "Allow TCP traffic from other nodes for libcluster"⟩,
      by simp [appStackRuleDecls, ecsServiceSecurityGroupRules],
      rfl, rfl, rfl, Or.inl rfl, Nat.zero_le p, hp⟩

/-- Witness for the amended C4 at port 4369 (the Erlang port-mapper port
libcluster traffic may use). -/
theorem all_tcp_from_vpc_cidr_witness :
    admitsInboundTcp (appStackRuleDecls demoProps)
      (ecsServiceSecurityGroupName demoProps)
      (Peer.ipv4 demoProps.vpcCidrBlock) 4369 :=
  (all_tcp_from_vpc_cidr demoProps).2 4369 (by decide)

/-- Claim C6 counterexample: at stage="staging", appName="demo" the app
stack's allowTo declaration materializes an ingress rule on the database
security group (TCP 5432 from the service security group), and the database
security group is not rule-free at creation either (it carries the default
allow-all egress rule) — so the database group is both created with a rule
and later has a rule added to it. -/
theorem database_sg_rule_added_by_app_stack :
    (∃ r ∈ appStackRuleDecls demoProps,
        r.sg = databaseSecurityGroupName demoDbProps ∧
        r.direction = Direction.ingress ∧
        r.peer = Peer.securityGroup (ecsServiceSecurityGroupName demoProps) ∧
        r.port = Port.tcp 5432) ∧
    databaseStackRuleDecls demoDbProps ≠ [] := by
  decide

/-- Claim C6 (amended): the database security group is created with no
ingress rules — DataTier declares nothing on it beyond the default
allow-all egress rule. ComputeTier's single allowTo declaration on its own
security group referencing the Database handle is what grants access: it
adds exactly one ingress rule to the database's security group (TCP 5432
from the service group, rendered in the app stack) and no egress rule on
the service group; no other rule in either stack targets the database's
group. -/
theorem database_sg_single_ingress_from_service (dp : DatabaseStackProps)
    (ap : AppStackProps) (hstage : ap.stage = dp.stage)
    (happ : ap.appName = dp.appName) :
    databaseStackRuleDecls dp
        = [allowAllOutboundRule (databaseSecurityGroupName dp)] ∧
    (∀ r ∈ databaseStackRuleDecls dp, r.direction ≠ Direction.ingress) ∧
    (∃ r ∈ appStackRuleDecls ap, r = databaseIngressFromServiceRule ap) ∧
    (∀ r ∈ databaseStackRuleDecls dp ++ appStackRuleDecls ap,
        r.sg = databaseSecurityGroupName dp →
        r = allowAllOutboundRule (databaseSecurityGroupName dp) ∨
        r = databaseIngressFromServiceRule ap) := by
  have hpre : ap.stage ++ "-" ++ ap.appName = dp.stage ++ "-" ++ dp.appName := by
    rw [hstage, happ]
  have hne1 : ecsAlbSecurityGroupName ap ≠ databaseSecurityGroupName dp := by
    unfold ecsAlbSecurityGroupName databaseSecurityGroupName
    rw [hpre]
    exact append_ne_of_length_ne _ _ _ (by decide)
  have hne2 : ecsServiceSecurityGroupName ap ≠ databaseSecurityGroupName dp := by
    unfold ecsServiceSecurityGroupName databaseSecurityGroupName
    rw [hpre]
    exact append_ne_of_length_ne _ _ _ (by decide)
  have hdbname : appStackDatabaseSecurityGroup ap = databaseSecurityGroupName dp := by
    unfold appStackDatabaseSecurityGroup databaseSecurityGroupName
    rw [hpre]
  refine ⟨rfl, ?_, ?_, ?_⟩
  · rintro r hr
    simp only [databaseStackRuleDecls, List.mem_singleton] at hr
    subst hr
    exact fun h => Direction.noConfusion h
  · exact ⟨databaseIngressFromServiceRule ap,
      by simp [appStackRuleDecls, allowToDatabaseRules, connectionsAllowTo,
        databaseIngressFromServiceRule], rfl⟩
  · intro r hr hsg
    simp only [databaseStackRuleDecls, appStackRuleDecls,
      ecsAlbSecurityGroupRules, ecsServiceSecurityGroupRules,
      allowToDatabaseRules, connectionsAllowTo, List.mem_append,
      List.mem_cons, List.mem_singleton, List.not_mem_nil, or_false,
      false_or, List.nil_append, or_assoc] at hr
    rcases hr with rfl | rfl | rfl | rfl | rfl | rfl | rfl
    · exact Or.inl rfl
    · exact absurd hsg hne1
    · exact absurd hsg hne1
    · exact absurd hsg hne2
    · exact absurd hsg hne2
    · exact absurd hsg hne2
    · exact Or.inr rfl

/-- Witness for the amended C6 at the staging/demo deployment. -/
theorem database_sg_single_ingress_from_service_witness :
    databaseStackRuleDecls demoDbProps
        = [allowAllOutboundRule (databaseSecurityGroupName demoDbProps)] ∧
    (∃ r ∈ appStackRuleDecls demoProps,
        r = databaseIngressFromServiceRule demoProps) := by
  have h := database_sg_single_ingress_from_service demoDbProps demoProps rfl rfl
  exact ⟨h.1, h.2.2.1⟩

end LiveBeats
